import Mathlib

/-!
Shallow embedding of the record layer of fatamorgana (src/fatamorgana/records.py).

The data model (Modals, the record variants) and the modal merge/dedup engine
(adjust_field, dedup_field, adjust_coordinates, dedup_coordinates,
adjust_repetition, dedup_repetition) are translated directly from the source.
Python attribute mutation is rendered as explicit state passing: a function
that mutates a record and the modal bank returns the new record field values
and the new modal bank.  Python exceptions are rendered as Except: every
raise of InvalidDataError becomes the invalidData constructor of PyErr, and a
Python TypeError (for example a comparison of None with an int) becomes the
typeError constructor.

Collaborator types living in the absent basic.py (repetition_t, NString,
AString, property_value_t, PathExtensionScheme, the byte primitives) are
modelled from the spec where the spec fixes their contract, and otherwise
abstracted to the structure this layer observes.
-/

/-- Exceptions observable at this layer.  The source raises a single error
family (InvalidDataError, from basic.py); its distinct causes are told apart
here by an ErrKind tag recovered from the message strings.  A Python
TypeError (not part of that family) is a separate constructor. -/
inductive ErrKind where
  | unexpectedId
  | malformedHeader
  | malformedRecord
  | unfillableField
  | unfillableRepetition
  | compressionError
  deriving DecidableEq, Repr

inductive PyErr where
  | invalidData (kind : ErrKind)
  | typeError
  deriving DecidableEq, Repr

/-- Modelled from the spec: repetition_t of basic.py is a tagged sum of nine
repetition types including ReuseRepetition.  Only the Reuse/non-Reuse
distinction and equality matter at the record layer, so the eight concrete
variants are abstracted to a tag plus parameter list. -/
inductive Repetition where
  | reuse
  | explicitRep (kind : Nat) (params : List Int)
  deriving DecidableEq, Repr

/-- Modelled from the spec: a name or string field that is either a literal
(NString / AString, abstracted to the underlying text) or a reference
number. -/
inductive NameRef where
  | byName (s : String)
  | byNum (n : Nat)
  deriving DecidableEq, Repr

/-- Modelled from the spec: PathExtensionScheme of basic.py with the wire
codes 1 = Flush, 2 = HalfWidth, 3 = Arbitrary; the Arbitrary form carries a
signed offset (the second slot of the source tuple). -/
inductive PathExt where
  | flush
  | halfwidth
  | arbitrary (k : Int)
  deriving DecidableEq, Repr

/-- Wire code of a path extension scheme (the .value of the source enum). -/
def PathExt.val : PathExt → Nat
  | .flush => 1
  | .halfwidth => 2
  | .arbitrary _ => 3

/-- Modelled from the spec: property_value_t of basic.py, a tagged sum over
reals, strings and reference numbers. -/
inductive PropertyValue where
  | pvReal (q : Rat)
  | pvString (s : String)
  | pvRef (n : Nat)
  deriving DecidableEq, Repr

/-- The modal variable bank (class Modals of records.py), one slot per field,
with the same names and optionality as the source. -/
structure Modals where
  repetition : Option Repetition
  placement_x : Int
  placement_y : Int
  placement_cell : Option NameRef
  layer : Option Nat
  datatype : Option Nat
  text_layer : Option Nat
  text_datatype : Option Nat
  text_x : Int
  text_y : Int
  text_string : Option NameRef
  geometry_x : Int
  geometry_y : Int
  xy_relative : Bool
  geometry_w : Option Nat
  geometry_h : Option Nat
  polygon_point_list : Option (List (Int × Int))
  path_halfwidth : Option Nat
  path_point_list : Option (List (Int × Int))
  path_extension_start : Option PathExt
  path_extension_end : Option PathExt
  ctrapezoid_type : Option Nat
  circle_radius : Option Nat
  property_value_list : Option (List PropertyValue)
  property_name : Option NameRef
  property_is_standard : Option Bool
  deriving DecidableEq, Repr

/-- Modals.reset of the source: every modal variable is set to its default
value (0 for the coordinate pairs, False for xy_relative, None otherwise).
The source constructor calls reset, so this is also the initial bank. -/
def Modals.reset : Modals where
  repetition := none
  placement_x := 0
  placement_y := 0
  placement_cell := none
  layer := none
  datatype := none
  text_layer := none
  text_datatype := none
  text_x := 0
  text_y := 0
  text_string := none
  geometry_x := 0
  geometry_y := 0
  xy_relative := false
  geometry_w := none
  geometry_h := none
  polygon_point_list := none
  path_halfwidth := none
  path_point_list := none
  path_extension_start := none
  path_extension_end := none
  ctrapezoid_type := none
  circle_radius := none
  property_value_list := none
  property_name := none
  property_is_standard := none

/-- adjust_field of records.py.  The record field and the modal field are
passed by value; the result is the pair (new record field, new modal field).
If the record field is set it is copied into the modal; otherwise a set modal
is copied into the record; otherwise the field is unfillable. -/
def adjust_field {α : Type} (r m : Option α) : Except PyErr (Option α × Option α) :=
  match r with
  | some v => .ok (some v, some v)
  | none =>
    match m with
    | some mv => .ok (some mv, some mv)
    | none => .error (.invalidData .unfillableField)

/-- dedup_field of records.py.  A record field equal to the modal is cleared;
a differing set record field overwrites the modal; an unset record field with
an unset modal is unfillable. -/
def dedup_field {α : Type} [DecidableEq α] (r m : Option α) :
    Except PyErr (Option α × Option α) :=
  match r with
  | some v =>
    if m = some v then .ok (none, m)
    else .ok (some v, some v)
  | none =>
    match m with
    | some _ => .ok (none, m)
    | none => .error (.invalidData .unfillableField)

/-- One axis of adjust_coordinates of records.py: a set record coordinate is
incremented by the modal when xy_relative (modal unchanged) and otherwise
stored into the modal; an unset record coordinate is filled from the modal.
The source contains no raise here, so the result is a plain pair
(new record coordinate, new modal coordinate). -/
def adjust_coordinate_axis (xy_relative : Bool) (r : Option Int) (m : Int) :
    Option Int × Int :=
  match r with
  | some v => if xy_relative then (some (v + m), m) else (some v, v)
  | none => (some m, m)

/-- adjust_coordinates of records.py: the x axis block followed by the
y axis block, each independent of the other. -/
def adjust_coordinates (xy_relative : Bool) (x y : Option Int) (mx my : Int) :
    (Option Int × Int) × (Option Int × Int) :=
  (adjust_coordinate_axis xy_relative x mx, adjust_coordinate_axis xy_relative y my)

/-- One axis of dedup_coordinates of records.py. -/
def dedup_coordinate_axis (xy_relative : Bool) (r : Option Int) (m : Int) :
    Option Int × Int :=
  match r with
  | some v =>
    if xy_relative then (some (v - m), m)
    else if v = m then (none, m) else (some v, v)
  | none => (none, m)

/-- dedup_coordinates of records.py: the x axis block followed by the
y axis block. -/
def dedup_coordinates (xy_relative : Bool) (x y : Option Int) (mx my : Int) :
    (Option Int × Int) × (Option Int × Int) :=
  (dedup_coordinate_axis xy_relative x mx, dedup_coordinate_axis xy_relative y my)

/-- adjust_repetition of records.py: a ReuseRepetition in the record demands
a set modal repetition (else the record is unfillable) and is replaced by a
copy of it; any other set repetition overwrites the modal. -/
def adjust_repetition (r m : Option Repetition) :
    Except PyErr (Option Repetition × Option Repetition) :=
  match r with
  | none => .ok (none, m)
  | some .reuse =>
    match m with
    | none => .error (.invalidData .unfillableRepetition)
    | some mr => .ok (some mr, some mr)
  | some (.explicitRep k ps) => .ok (some (.explicitRep k ps), some (.explicitRep k ps))

/-- dedup_repetition of records.py: a set repetition equal to the modal is
collapsed to ReuseRepetition; a differing one overwrites the modal; a
ReuseRepetition already in the record demands a set modal. -/
def dedup_repetition (r m : Option Repetition) :
    Except PyErr (Option Repetition × Option Repetition) :=
  match r with
  | none => .ok (none, m)
  | some .reuse =>
    match m with
    | none => .error (.invalidData .unfillableRepetition)
    | some _ => .ok (some .reuse, m)
  | some (.explicitRep k ps) =>
    if m = some (.explicitRep k ps) then .ok (some .reuse, m)
    else .ok (some (.explicitRep k ps), some (.explicitRep k ps))

/-!  Byte-stream primitives.  These live in the absent basic.py; the spec
fixes their wire contract, which is reproduced here. -/

/-- Modelled from the spec: write_uint of basic.py, the little-endian
base-128 variable-length unsigned integer with the continuation bit in the
most significant bit of each byte. -/
def write_uint (n : Nat) : List Nat :=
  if h : n < 128 then [n]
  else (n % 128 + 128) :: write_uint (n / 128)
decreasing_by
  exact Nat.div_lt_self (Nat.lt_of_lt_of_le (by norm_num) (Nat.le_of_not_lt h)) (by norm_num)

/-- Modelled from the spec: write_sint of basic.py, the same base-128
encoding applied to the value with its sign bit placed in the least
significant bit. -/
def write_sint (k : Int) : List Nat :=
  write_uint (2 * k.natAbs + (if k < 0 then 1 else 0))

/-- Modelled from the spec: write_bool_byte of basic.py packs eight flags
into one byte, most significant bit first. -/
def bool_byte (b7 b6 b5 b4 b3 b2 b1 b0 : Bool) : Nat :=
  128 * b7.toNat + 64 * b6.toNat + 32 * b5.toNat + 16 * b4.toNat +
    8 * b3.toNat + 4 * b2.toNat + 2 * b1.toNat + b0.toNat

/-- Modelled from the spec: read_uint of basic.py, the parser inverse of
write_uint over a byte list; returns the value and the remaining bytes. -/
def read_uint : List Nat → Except PyErr (Nat × List Nat)
  | [] => .error (.invalidData .unexpectedId)
  | b :: rest =>
    if b < 128 then .ok (b, rest)
    else
      match read_uint rest with
      | .error e => .error e
      | .ok (v, rest2) => .ok ((b - 128) + 128 * v, rest2)

/-- Modelled from the spec: read_bool_byte of basic.py, eight flags most
significant bit first. -/
def read_bool_byte : List Nat →
    Except PyErr ((Bool × Bool × Bool × Bool × Bool × Bool × Bool × Bool) × List Nat)
  | [] => .error (.invalidData .unexpectedId)
  | b :: rest =>
    .ok ((128 ≤ b % 256, 64 ≤ b % 128, 32 ≤ b % 64, 16 ≤ b % 32,
          8 ≤ b % 16, 4 ≤ b % 8, 2 ≤ b % 4, 1 ≤ b % 2), rest)

/-- Modelled from the spec: read_sint of basic.py. -/
def read_sint (s : List Nat) : Except PyErr (Int × List Nat) :=
  match read_uint s with
  | .error e => .error e
  | .ok (v, rest) =>
    .ok ((if v % 2 = 1 then -(v / 2 : Int) else (v / 2 : Int)), rest)

/-!  Record variants whose merge and dedup either reset the whole modal
bank, leave it untouched, or (XYMode) touch only xy_relative.  The record
payloads are carried so the functions have the same shape as the source
methods; none of them reads the bank. -/

structure PadRec where
  deriving DecidableEq, Repr

/-- Pad.merge_with_modals: pass. -/
def PadRec.merge_with_modals (_r : PadRec) (modals : Modals) : Modals := modals

/-- Pad.deduplicate_with_modals: pass. -/
def PadRec.deduplicate_with_modals (_r : PadRec) (modals : Modals) : Modals := modals

structure XYModeRec where
  relative : Bool
  deriving DecidableEq, Repr

/-- XYMode.merge_with_modals assigns the record flag to modals.xy_relative
and touches nothing else. -/
def XYModeRec.merge_with_modals (r : XYModeRec) (modals : Modals) : Modals :=
  { modals with xy_relative := r.relative }

/-- XYMode.deduplicate_with_modals: pass. -/
def XYModeRec.deduplicate_with_modals (_r : XYModeRec) (modals : Modals) : Modals :=
  modals

structure StartRec where
  version : String
  unit : Rat
  offset_table : Option (List Nat)
  deriving DecidableEq, Repr

/-- Start.merge_with_modals: modals.reset(). -/
def StartRec.merge_with_modals (_r : StartRec) (_modals : Modals) : Modals :=
  Modals.reset

/-- Start.deduplicate_with_modals: modals.reset(). -/
def StartRec.deduplicate_with_modals (_r : StartRec) (_modals : Modals) : Modals :=
  Modals.reset

structure EndRec where
  offset_table : Option (List Nat)
  validation : List Nat
  deriving DecidableEq, Repr

/-- End.merge_with_modals: pass. -/
def EndRec.merge_with_modals (_r : EndRec) (modals : Modals) : Modals := modals

/-- End.deduplicate_with_modals: pass. -/
def EndRec.deduplicate_with_modals (_r : EndRec) (modals : Modals) : Modals := modals

structure CBlockRec where
  compression_type : Nat
  decompressed_byte_count : Nat
  compressed_bytes : List Nat
  deriving DecidableEq, Repr

/-- CBlock.merge_with_modals: pass. -/
def CBlockRec.merge_with_modals (_r : CBlockRec) (modals : Modals) : Modals := modals

/-- CBlock.deduplicate_with_modals: pass. -/
def CBlockRec.deduplicate_with_modals (_r : CBlockRec) (modals : Modals) : Modals :=
  modals

structure CellNameRec where
  nstring : String
  reference_number : Option Nat
  deriving DecidableEq, Repr

/-- CellName.merge_with_modals: modals.reset(). -/
def CellNameRec.merge_with_modals (_r : CellNameRec) (_modals : Modals) : Modals :=
  Modals.reset

/-- CellName.deduplicate_with_modals: modals.reset(). -/
def CellNameRec.deduplicate_with_modals (_r : CellNameRec) (_modals : Modals) : Modals :=
  Modals.reset

structure PropNameRec where
  nstring : String
  reference_number : Option Nat
  deriving DecidableEq, Repr

/-- PropName.merge_with_modals: modals.reset(). -/
def PropNameRec.merge_with_modals (_r : PropNameRec) (_modals : Modals) : Modals :=
  Modals.reset

/-- PropName.deduplicate_with_modals: modals.reset(). -/
def PropNameRec.deduplicate_with_modals (_r : PropNameRec) (_modals : Modals) : Modals :=
  Modals.reset

structure TextStringRec where
  astring : String
  reference_number : Option Nat
  deriving DecidableEq, Repr

/-- TextString.merge_with_modals: modals.reset(). -/
def TextStringRec.merge_with_modals (_r : TextStringRec) (_modals : Modals) : Modals :=
  Modals.reset

/-- TextString.deduplicate_with_modals: modals.reset(). -/
def TextStringRec.deduplicate_with_modals (_r : TextStringRec) (_modals : Modals) :
    Modals :=
  Modals.reset

structure PropStringRec where
  astring : String
  reference_number : Option Nat
  deriving DecidableEq, Repr

/-- PropString.merge_with_modals: modals.reset(). -/
def PropStringRec.merge_with_modals (_r : PropStringRec) (_modals : Modals) : Modals :=
  Modals.reset

/-- PropString.deduplicate_with_modals: modals.reset(). -/
def PropStringRec.deduplicate_with_modals (_r : PropStringRec) (_modals : Modals) :
    Modals :=
  Modals.reset

structure LayerNameRec where
  nstring : String
  layer_interval : Option Nat × Option Nat
  type_interval : Option Nat × Option Nat
  is_textlayer : Bool
  deriving DecidableEq, Repr

/-- LayerName.merge_with_modals: modals.reset(). -/
def LayerNameRec.merge_with_modals (_r : LayerNameRec) (_modals : Modals) : Modals :=
  Modals.reset

/-- LayerName.deduplicate_with_modals: modals.reset(). -/
def LayerNameRec.deduplicate_with_modals (_r : LayerNameRec) (_modals : Modals) :
    Modals :=
  Modals.reset

structure XNameRec where
  attrib : Nat
  bstring : List Nat
  reference_number : Option Nat
  deriving DecidableEq, Repr

/-- XName.merge_with_modals: modals.reset(). -/
def XNameRec.merge_with_modals (_r : XNameRec) (_modals : Modals) : Modals :=
  Modals.reset

/-- XName.deduplicate_with_modals: modals.reset(). -/
def XNameRec.deduplicate_with_modals (_r : XNameRec) (_modals : Modals) : Modals :=
  Modals.reset

structure XElementRec where
  attrib : Nat
  bstring : List Nat
  deriving DecidableEq, Repr

/-- XElement.merge_with_modals: pass. -/
def XElementRec.merge_with_modals (_r : XElementRec) (modals : Modals) : Modals :=
  modals

/-- XElement.deduplicate_with_modals: pass. -/
def XElementRec.deduplicate_with_modals (_r : XElementRec) (modals : Modals) : Modals :=
  modals

structure CellRec where
  name : NameRef
  deriving DecidableEq, Repr

/-- Cell.merge_with_modals: modals.reset(). -/
def CellRec.merge_with_modals (_r : CellRec) (_modals : Modals) : Modals :=
  Modals.reset

/-- Cell.deduplicate_with_modals: modals.reset(). -/
def CellRec.deduplicate_with_modals (_r : CellRec) (_modals : Modals) : Modals :=
  Modals.reset

/-!  Circle (ID 27). -/

structure CircleRec where
  layer : Option Nat
  datatype : Option Nat
  x : Option Int
  y : Option Int
  repetition : Option Repetition
  radius : Option Nat
  deriving DecidableEq, Repr

/-- Circle.merge_with_modals: coordinates against geometry_x / geometry_y,
then repetition, layer, datatype, radius against circle_radius, in source
order. -/
def CircleRec.merge_with_modals (r : CircleRec) (modals : Modals) :
    Except PyErr (CircleRec × Modals) := do
  let ((x', gx), (y', gy)) :=
    adjust_coordinates modals.xy_relative r.x r.y modals.geometry_x modals.geometry_y
  let (rep', mrep) ← adjust_repetition r.repetition modals.repetition
  let (layer', ml) ← adjust_field r.layer modals.layer
  let (dt', md) ← adjust_field r.datatype modals.datatype
  let (rad', mr) ← adjust_field r.radius modals.circle_radius
  pure ({ layer := layer', datatype := dt', x := x', y := y',
          repetition := rep', radius := rad' },
        { modals with geometry_x := gx, geometry_y := gy, repetition := mrep,
                      layer := ml, datatype := md, circle_radius := mr })

/-- Circle.deduplicate_with_modals, mirroring the merge order with the dedup
engine functions. -/
def CircleRec.deduplicate_with_modals (r : CircleRec) (modals : Modals) :
    Except PyErr (CircleRec × Modals) := do
  let ((x', gx), (y', gy)) :=
    dedup_coordinates modals.xy_relative r.x r.y modals.geometry_x modals.geometry_y
  let (rep', mrep) ← dedup_repetition r.repetition modals.repetition
  let (layer', ml) ← dedup_field r.layer modals.layer
  let (dt', md) ← dedup_field r.datatype modals.datatype
  let (rad', mr) ← dedup_field r.radius modals.circle_radius
  pure ({ layer := layer', datatype := dt', x := x', y := y',
          repetition := rep', radius := rad' },
        { modals with geometry_x := gx, geometry_y := gy, repetition := mrep,
                      layer := ml, datatype := md, circle_radius := mr })

/-!  Rectangle (ID 20). -/

structure RectangleRec where
  is_square : Bool
  layer : Option Nat
  datatype : Option Nat
  width : Option Nat
  height : Option Nat
  x : Option Int
  y : Option Int
  repetition : Option Repetition
  deriving DecidableEq, Repr

/-- Rectangle.merge_with_modals: coordinates, repetition, layer, datatype,
then adjust_field(width, geometry_w); for a square the engine then runs
adjust_field(width, geometry_h) on the already adjusted width (the height
field of the record is not touched), otherwise
adjust_field(height, geometry_h). -/
def RectangleRec.merge_with_modals (r : RectangleRec) (modals : Modals) :
    Except PyErr (RectangleRec × Modals) := do
  let ((x', gx), (y', gy)) :=
    adjust_coordinates modals.xy_relative r.x r.y modals.geometry_x modals.geometry_y
  let (rep', mrep) ← adjust_repetition r.repetition modals.repetition
  let (layer', ml) ← adjust_field r.layer modals.layer
  let (dt', md) ← adjust_field r.datatype modals.datatype
  let (w1, gw) ← adjust_field r.width modals.geometry_w
  if r.is_square then
    let (w2, gh) ← adjust_field w1 modals.geometry_h
    pure ({ r with
              layer := layer'
              datatype := dt'
              width := w2
              x := x'
              y := y'
              repetition := rep' },
          { modals with
              geometry_x := gx
              geometry_y := gy
              repetition := mrep
              layer := ml
              datatype := md
              geometry_w := gw
              geometry_h := gh })
  else
    let (h', gh) ← adjust_field r.height modals.geometry_h
    pure ({ r with
              layer := layer'
              datatype := dt'
              width := w1
              height := h'
              x := x'
              y := y'
              repetition := rep' },
          { modals with
              geometry_x := gx
              geometry_y := gy
              repetition := mrep
              layer := ml
              datatype := md
              geometry_w := gw
              geometry_h := gh })

/-- Rectangle.deduplicate_with_modals, mirroring the merge order with the
dedup engine functions (including the square special case on width). -/
def RectangleRec.deduplicate_with_modals (r : RectangleRec) (modals : Modals) :
    Except PyErr (RectangleRec × Modals) := do
  let ((x', gx), (y', gy)) :=
    dedup_coordinates modals.xy_relative r.x r.y modals.geometry_x modals.geometry_y
  let (rep', mrep) ← dedup_repetition r.repetition modals.repetition
  let (layer', ml) ← dedup_field r.layer modals.layer
  let (dt', md) ← dedup_field r.datatype modals.datatype
  let (w1, gw) ← dedup_field r.width modals.geometry_w
  if r.is_square then
    let (w2, gh) ← dedup_field w1 modals.geometry_h
    pure ({ r with
              layer := layer'
              datatype := dt'
              width := w2
              x := x'
              y := y'
              repetition := rep' },
          { modals with
              geometry_x := gx
              geometry_y := gy
              repetition := mrep
              layer := ml
              datatype := md
              geometry_w := gw
              geometry_h := gh })
  else
    let (h', gh) ← dedup_field r.height modals.geometry_h
    pure ({ r with
              layer := layer'
              datatype := dt'
              width := w1
              height := h'
              x := x'
              y := y'
              repetition := rep' },
          { modals with
              geometry_x := gx
              geometry_y := gy
              repetition := mrep
              layer := ml
              datatype := md
              geometry_w := gw
              geometry_h := gh })

/-!  CTrapezoid (ID 26). -/

structure CTrapezoidRec where
  ctrapezoid_type : Option Nat
  layer : Option Nat
  datatype : Option Nat
  width : Option Nat
  height : Option Nat
  x : Option Int
  y : Option Int
  repetition : Option Repetition
  deriving DecidableEq, Repr

/-- Python comparison of two possibly-None unsigned values: comparing None
with an int (or with None) raises a TypeError; the source performs such
comparisons unguarded in CTrapezoid.__init__. -/
def pyCmpNat (f : Nat → Nat → Bool) (a b : Option Nat) : Except PyErr Bool :=
  match a, b with
  | some av, some bv => .ok (f av bv)
  | _, _ => .error .typeError

/-- Python multiplication 2 * h where h may be None: None propagates so the
surrounding comparison raises a TypeError, matching the source behaviour
(2 * None already raises, with the same observable outcome). -/
def pyDouble (h : Option Nat) : Option Nat := h.map (fun v => 2 * v)

/-- Membership of the optional ctrapezoid_type in a literal id list
(the Python expression t in (...) with t possibly None). -/
def optIn (t : Option Nat) (ids : List Nat) : Bool :=
  match t with
  | some v => ids.contains v
  | none => false

/-- Membership of the optional ctrapezoid_type in range(a, b). -/
def optInRange (t : Option Nat) (a b : Nat) : Bool :=
  match t with
  | some v => a ≤ v && v < b
  | none => false

/-- CTrapezoid.__init__ of records.py: stores the fields, then checks in
source order that types 20 and 21 carry no width, that the seven
height-forbidding types carry no height, the four width/height inequality
families for types 0 to 15 (each inequality evaluated with Python semantics,
so an unset operand raises TypeError), and that a set type lies in
range(0, 26). -/
def ctrapezoidInit (ctrapezoid_type layer datatype width height : Option Nat)
    (x y : Option Int) (repetition : Option Repetition) :
    Except PyErr CTrapezoidRec := do
  if optIn ctrapezoid_type [20, 21] && width.isSome then
    throw (.invalidData .malformedRecord)
  if optIn ctrapezoid_type [16, 17, 18, 19, 22, 23, 25] && height.isSome then
    throw (.invalidData .malformedRecord)
  if optInRange ctrapezoid_type 0 4 then
    let b ← pyCmpNat (· < ·) width height
    if b then throw (.invalidData .malformedRecord)
  if optInRange ctrapezoid_type 4 8 then
    let b ← pyCmpNat (· < ·) width (pyDouble height)
    if b then throw (.invalidData .malformedRecord)
  if optInRange ctrapezoid_type 8 12 then
    let b ← pyCmpNat (· > ·) width height
    if b then throw (.invalidData .malformedRecord)
  if optInRange ctrapezoid_type 12 16 then
    let b ← pyCmpNat (· > ·) (pyDouble width) height
    if b then throw (.invalidData .malformedRecord)
  if ctrapezoid_type.isSome && !(optInRange ctrapezoid_type 0 26) then
    throw (.invalidData .malformedRecord)
  pure { ctrapezoid_type := ctrapezoid_type, layer := layer, datatype := datatype,
         width := width, height := height, x := x, y := y,
         repetition := repetition }

/-- CTrapezoid.merge_with_modals: coordinates, repetition, layer, datatype,
ctrapezoid_type, then width and height guarded by the (already merged)
type: types 20 and 21 must have no width (no modal exchange), the seven
height-forbidding types must have no height; the width/height inequality
constraints of the constructor are not re-checked here. -/
def CTrapezoidRec.merge_with_modals (r : CTrapezoidRec) (modals : Modals) :
    Except PyErr (CTrapezoidRec × Modals) := do
  let ((x', gx), (y', gy)) :=
    adjust_coordinates modals.xy_relative r.x r.y modals.geometry_x modals.geometry_y
  let (rep', mrep) ← adjust_repetition r.repetition modals.repetition
  let (layer', ml) ← adjust_field r.layer modals.layer
  let (dt', md) ← adjust_field r.datatype modals.datatype
  let (t', mt) ← adjust_field r.ctrapezoid_type modals.ctrapezoid_type
  let (w', gw) ←
    if optIn t' [20, 21] then
      if r.width.isSome then throw (.invalidData .malformedRecord)
      else pure (r.width, modals.geometry_w)
    else adjust_field r.width modals.geometry_w
  let (h', gh) ←
    if optIn t' [16, 17, 18, 19, 22, 23, 25] then
      if r.height.isSome then throw (.invalidData .malformedRecord)
      else pure (r.height, modals.geometry_h)
    else adjust_field r.height modals.geometry_h
  pure ({ ctrapezoid_type := t', layer := layer', datatype := dt', width := w',
          height := h', x := x', y := y', repetition := rep' },
        { modals with
            geometry_x := gx
            geometry_y := gy
            repetition := mrep
            layer := ml
            datatype := md
            ctrapezoid_type := mt
            geometry_w := gw
            geometry_h := gh })

/-!  End (ID 2) writer. -/

/-- End.write of records.py, over the encoded bytes of the collaborator
sub-records (OffsetTable.write and Validation.write live in the absent
basic.py and are abstracted to the byte sequences they produce).  The
source writes the id, the optional offset table, then - when
pad_len = 256 - size - len(validation_bytes) is positive - a pad of
pad_len - 1 bytes 0x80 followed by 0x00, then the validation bytes, and
returns the literal 256.  The result is (bytes emitted, returned count). -/
def EndRec.writeBytes (offset_table : Option (List Nat)) (validation_bytes : List Nat) :
    List Nat × Nat :=
  let idBytes := write_uint 2
  let otBytes := match offset_table with | some b => b | none => []
  let size : Int := idBytes.length + otBytes.length
  let pad_len : Int := 256 - size - validation_bytes.length
  let pad : List Nat :=
    if 0 < pad_len then List.replicate (pad_len.toNat - 1) 0x80 ++ [0x00] else []
  (idBytes ++ otBytes ++ pad ++ validation_bytes, 256)

/-!  Placement (ID 17, 18) record id selection. -/

/-- Whether a real value (modelled as a rational) satisfies the Python test
value mod 90 == 0, i.e. is an exact integer multiple of 90. -/
def rat_mult_90 (a : Rat) : Prop := (a / 90).den = 1

instance (a : Rat) : Decidable (rat_mult_90 a) := by
  unfold rat_mult_90
  infer_instance

/-- The Python expression int((angle / 90) % 4): the Python float modulo
yields the representative in [0, 4), and int() truncates it toward zero,
which on a non-negative value is the floor. -/
def placementAA (angle : Rat) : Int :=
  Int.floor (angle / 90 - 4 * Int.floor (angle / 90 / 4))

/-- Outcome of the id selection in Placement.write: either id 17 with the
two AA angle bits, or id 18 with the magnification/angle presence bits. -/
inductive PlacementVariant where
  | id17 (aa : Int)
  | id18 (has_mag has_angle : Bool)
  deriving DecidableEq, Repr

/-- The id selection of Placement.write, translated with Python operator
precedence: the source condition

  self.angle is not None and self.angle % 90 == 0 and
    self.magnification is None or self.magnification == 1

parses as (angle set AND angle mod 90 == 0 AND magnification unset) OR
(magnification == 1), because and binds tighter than or.  In the id 17
branch the source computes aa = int((self.angle / 90) % 4), which raises a
TypeError when the angle is unset (None / 90). -/
def placementWriteVariant (magnification angle : Option Rat) :
    Except PyErr PlacementVariant :=
  if (angle ≠ none ∧ rat_mult_90 (angle.getD 0) ∧ magnification = none)
      ∨ magnification = some 1 then
    match angle with
    | none => .error .typeError
    | some a => .ok (.id17 (placementAA a))
  else
    .ok (.id18 magnification.isSome angle.isSome)

/-- Modelled from the spec: the id selection rule stated in section 4.2,
Placement specifics - id 17 exactly when the angle is a multiple of 90
degrees and the magnification is unset or equal to 1; id 18 otherwise.
Stated separately so it can be compared with the source condition. -/
def placementSpecChoosesId17 (magnification angle : Option Rat) : Prop :=
  match angle with
  | none => False
  | some a => rat_mult_90 a ∧ (magnification = none ∨ magnification = some 1)

/-!  Path (ID 22 per taxonomy).  The point-list and repetition codecs live
in the absent basic.py and are passed as explicit collaborator functions. -/

structure PathRec where
  layer : Option Nat
  datatype : Option Nat
  x : Option Int
  y : Option Int
  repetition : Option Repetition
  point_list : Option (List (Int × Int))
  half_width : Option Nat
  extension_start : Option PathExt
  extension_end : Option PathExt
  deriving DecidableEq, Repr

/-- The Path record with every field unset. -/
def PathRec.empty : PathRec where
  layer := none
  datatype := none
  x := none
  y := none
  repetition := none
  point_list := none
  half_width := none
  extension_start := none
  extension_end := none

/-- Path.write of records.py: emits write_uint(21) - the literal in the
source - then the EWPXYRDL flag byte, then the present fields in source
order (layer, datatype, half_width, extension scheme word plus Arbitrary
offsets, point list, x, y, repetition). -/
def PathRec.write (writePointList : List (Int × Int) → List Nat)
    (writeRepetition : Repetition → List Nat) (r : PathRec) : List Nat :=
  let e := r.extension_start.isSome || r.extension_end.isSome
  let w := r.half_width.isSome
  let p := r.point_list.isSome
  let xb := r.x.isSome
  let yb := r.y.isSome
  let rb := r.repetition.isSome
  let d := r.datatype.isSome
  let l := r.layer.isSome
  write_uint 21
  ++ [bool_byte e w p xb yb rb d l]
  ++ (match r.layer with | some v => write_uint v | none => [])
  ++ (match r.datatype with | some v => write_uint v | none => [])
  ++ (match r.half_width with | some v => write_uint v | none => [])
  ++ (if e then
        let scheme := (match r.extension_start with | some s => s.val * 4 | none => 0)
                    + (match r.extension_end with | some s => s.val | none => 0)
        write_uint scheme
        ++ (match r.extension_start with | some (.arbitrary k) => write_sint k | _ => [])
        ++ (match r.extension_end with | some (.arbitrary k) => write_sint k | _ => [])
      else [])
  ++ (match r.point_list with | some pl => writePointList pl | none => [])
  ++ (match r.x with | some v => write_sint v | none => [])
  ++ (match r.y with | some v => write_sint v | none => [])
  ++ (match r.repetition with | some rp => writeRepetition rp | none => [])

/-- Conditional uint field read helper (the if flag: read_uint pattern of
the source read methods). -/
def readOptUint (flag : Bool) (s : List Nat) : Except PyErr (Option Nat × List Nat) :=
  if flag then
    match read_uint s with
    | .error err => .error err
    | .ok (v, s2) => .ok (some v, s2)
  else .ok (none, s)

/-- Conditional sint field read helper. -/
def readOptSint (flag : Bool) (s : List Nat) : Except PyErr (Option Int × List Nat) :=
  if flag then
    match read_sint s with
    | .error err => .error err
    | .ok (v, s2) => .ok (some v, s2)
  else .ok (none, s)

/-- get_pathext of Path.read: scheme 0 inherits the modal (None), 1 is
Flush, 2 is HalfWidth, 3 is Arbitrary followed by a sint. -/
def get_pathext (ext_scheme : Nat) (s : List Nat) :
    Except PyErr (Option PathExt × List Nat) :=
  match ext_scheme with
  | 0 => .ok (none, s)
  | 1 => .ok (some .flush, s)
  | 2 => .ok (some .halfwidth, s)
  | 3 =>
    match read_sint s with
    | .error err => .error err
    | .ok (k, s2) => .ok (some (.arbitrary k), s2)
  | _ => .ok (none, s)

/-- Path.read of records.py: rejects every record id other than 22, then
parses the EWPXYRDL flag byte and the fields it announces, reading the
extension schemes start-then-end from the packed scheme word. -/
def PathRec.read (readPointList : List Nat → Except PyErr (List (Int × Int) × List Nat))
    (readRepetition : List Nat → Except PyErr (Repetition × List Nat))
    (record_id : Nat) (s : List Nat) : Except PyErr (PathRec × List Nat) := do
  if record_id ≠ 22 then throw (.invalidData .unexpectedId)
  let ((e, w, p, xb, yb, rb, d, l), s) ← read_bool_byte s
  let (layer, s) ← readOptUint l s
  let (datatype, s) ← readOptUint d s
  let (half_width, s) ← readOptUint w s
  let (extension_start, extension_end, s) ←
    if e then do
      let (scheme, s) ← read_uint s
      let scheme_end := scheme % 4
      let scheme_start := (scheme / 4) % 4
      let (es, s) ← get_pathext scheme_start s
      let (ee, s) ← get_pathext scheme_end s
      pure (es, ee, s)
    else pure (none, none, s)
  let (point_list, s) ←
    if p then do
      let (pl, s) ← readPointList s
      pure (some pl, s)
    else pure (none, s)
  let (x, s) ← readOptSint xb s
  let (y, s) ← readOptSint yb s
  let (repetition, s) ←
    if rb then do
      let (rp, s) ← readRepetition s
      pure (some rp, s)
    else pure (none, s)
  pure ({ layer := layer, datatype := datatype, x := x, y := y,
          repetition := repetition, point_list := point_list,
          half_width := half_width, extension_start := extension_start,
          extension_end := extension_end }, s)

/-!  Concrete instances used by the theorems below. -/

/-- The Rectangle of the relative-coordinate scenario: x = 5 with every
other mergeable field set so the merge succeeds against a fresh bank. -/
def c4rect : RectangleRec where
  is_square := false
  layer := some 1
  datatype := some 2
  width := some 3
  height := some 4
  x := some 5
  y := some 0
  repetition := none

/-- A modal bank in relative mode with geometry_x = 100. -/
def c4modals : Modals := { Modals.reset with xy_relative := true, geometry_x := 100 }

/-- A Circle record with an unset radius (reuse the modal) and every other
mergeable field set. -/
def c2circle : CircleRec where
  layer := some 1
  datatype := some 1
  x := some 0
  y := some 0
  repetition := none
  radius := none

/-- A modal bank whose circle_radius is set. -/
def c2modals : Modals := { Modals.reset with circle_radius := some 5 }

/-- A Circle record with all mergeable fields set and the given
repetition. -/
def circleFull (l d rad : Nat) (x y : Int) (rep : Option Repetition) : CircleRec where
  layer := some l
  datatype := some d
  x := some x
  y := some y
  repetition := rep
  radius := some rad

/-!  Theorems. -/

/-- C3: merge_field (adjust_field) on a record field and a modal field is
the trichotomy: a set record field is assigned to the modal (both ends hold
the value); an unset record field is filled from a set modal (modal
unchanged); and with both unset the call fails with the UnfillableField
error of the single InvalidDataError family.  The three equations cover
every input shape, so no other outcome is possible. -/
theorem c3_merge_field_trichotomy :
    ∀ (α : Type) (v w : α) (m : Option α),
      adjust_field (some v) m = .ok (some v, some v) ∧
      adjust_field (none : Option α) (some w) = .ok (some w, some w) ∧
      adjust_field (none : Option α) none
        = .error (.invalidData .unfillableField) := by
  intro α v w m
  exact ⟨rfl, rfl, rfl⟩

/-- C9: adjust_repetition raises the UnfillableRepetition error exactly when
the record repetition is the Reuse marker and the modal is unset; a Reuse
marker against a set modal is replaced by a copy of the modal (the modal end
keeps the same value); and any non-Reuse repetition overwrites the modal.
The equations cover every shape of a record that carries a repetition. -/
theorem c9_adjust_repetition_cases :
    ∀ (m : Option Repetition) (mr : Repetition) (k : Nat) (ps : List Int),
      adjust_repetition (some .reuse) none
        = .error (.invalidData .unfillableRepetition) ∧
      adjust_repetition (some .reuse) (some mr) = .ok (some mr, some mr) ∧
      adjust_repetition (some (.explicitRep k ps)) m
        = .ok (some (.explicitRep k ps), some (.explicitRep k ps)) := by
  intro m mr k ps
  exact ⟨rfl, rfl, rfl⟩

/-- C4: merge_coordinates (adjust_coordinates) treats the two axes
independently; on each axis a set record coordinate is incremented by the
modal in relative mode (modal unchanged) and stored into the modal in
absolute mode, and an unset record coordinate is filled from the modal; the
function returns a plain pair (it has no failure outcome).  Concretely, a
Rectangle with x = 5 merged against a relative bank with geometry_x = 100
comes out with x = 105 while the modal stays 100. -/
theorem c4_merge_coordinates :
    (∀ (v m : Int), adjust_coordinate_axis true (some v) m = (some (v + m), m)) ∧
    (∀ (v m : Int), adjust_coordinate_axis false (some v) m = (some v, v)) ∧
    (∀ (rel : Bool) (m : Int), adjust_coordinate_axis rel none m = (some m, m)) ∧
    (∀ (rel : Bool) (x y : Option Int) (mx my : Int),
      adjust_coordinates rel x y mx my
        = (adjust_coordinate_axis rel x mx, adjust_coordinate_axis rel y my)) ∧
    (RectangleRec.merge_with_modals c4rect c4modals).map
        (fun pr => (pr.1.x, pr.2.geometry_x)) = .ok (some 105, 100) := by
  refine ⟨fun v m => rfl, fun v m => rfl, fun rel m => ?_, fun rel x y mx my => rfl, rfl⟩
  cases rel <;> rfl

/-- C5: the frame of every record variant on the modal bank.  Start,
CellName, PropName, TextString, PropString, LayerName, XName and Cell reset
every modal variable to its initial value (Modals.reset, which is also the
state the source constructor installs) on both merge and dedup; Pad, End,
CBlock and XElement leave the bank untouched in both directions; XYMode
updates only xy_relative (to the record flag) on merge and is transparent
on dedup. -/
theorem c5_modal_frame :
    ∀ (m : Modals) (rSt : StartRec) (rCn : CellNameRec) (rPn : PropNameRec)
      (rTs : TextStringRec) (rPs : PropStringRec) (rLn : LayerNameRec)
      (rXn : XNameRec) (rCe : CellRec) (rPa : PadRec) (rEn : EndRec)
      (rCb : CBlockRec) (rXe : XElementRec) (rXy : XYModeRec),
      rSt.merge_with_modals m = Modals.reset ∧
      rSt.deduplicate_with_modals m = Modals.reset ∧
      rCn.merge_with_modals m = Modals.reset ∧
      rCn.deduplicate_with_modals m = Modals.reset ∧
      rPn.merge_with_modals m = Modals.reset ∧
      rPn.deduplicate_with_modals m = Modals.reset ∧
      rTs.merge_with_modals m = Modals.reset ∧
      rTs.deduplicate_with_modals m = Modals.reset ∧
      rPs.merge_with_modals m = Modals.reset ∧
      rPs.deduplicate_with_modals m = Modals.reset ∧
      rLn.merge_with_modals m = Modals.reset ∧
      rLn.deduplicate_with_modals m = Modals.reset ∧
      rXn.merge_with_modals m = Modals.reset ∧
      rXn.deduplicate_with_modals m = Modals.reset ∧
      rCe.merge_with_modals m = Modals.reset ∧
      rCe.deduplicate_with_modals m = Modals.reset ∧
      rPa.merge_with_modals m = m ∧
      rPa.deduplicate_with_modals m = m ∧
      rEn.merge_with_modals m = m ∧
      rEn.deduplicate_with_modals m = m ∧
      rCb.merge_with_modals m = m ∧
      rCb.deduplicate_with_modals m = m ∧
      rXe.merge_with_modals m = m ∧
      rXe.deduplicate_with_modals m = m ∧
      rXy.merge_with_modals m = { m with xy_relative := rXy.relative } ∧
      rXy.deduplicate_with_modals m = m := by
  intros
  repeat' constructor

/-- C6: the id selection of Placement.write does not implement the claimed
rule.  Because and binds tighter than or in the source condition, a
Placement with magnification 1 and angle 45 (not a multiple of 90 degrees)
is written with record id 17 and AA bits 0 - encoding the angle as 0
degrees - although the claimed rule (placementSpecChoosesId17) selects
id 18 for it; and a Placement with magnification 1 and no angle makes the
id 17 branch raise a TypeError on the unset angle instead of writing
id 18. -/
theorem c6_placement_id_bug :
    placementWriteVariant (some 1) (some 45) = .ok (.id17 0) ∧
    ¬ placementSpecChoosesId17 (some 1) (some 45) ∧
    placementWriteVariant (some 1) none = .error .typeError ∧
    ¬ placementSpecChoosesId17 (some 1) none := by
  have hden : ¬ rat_mult_90 45 := by
    unfold rat_mult_90
    norm_num [Rat.div_def]
  refine ⟨?_, ?_, ?_, ?_⟩
  · rw [placementWriteVariant, if_pos (Or.inr rfl)]
    have haa : placementAA 45 = 0 := by
      unfold placementAA
      norm_num
    simp [haa]
  · intro h
    exact hden h.1
  · rw [placementWriteVariant, if_pos (Or.inr rfl)]
  · intro h
    exact h

/-- C1: the codec round trip fails on the Path variant.  Path.write emits
write_uint(21) as its record id (21 is the Polygon id; the taxonomy id for
Path is 22), while Path.read rejects every record id other than 22, so the
bytes produced by writing a Path can never be read back as a Path: on the
all-unset Path the writer produces exactly the two bytes 21, 0 for any
point-list and repetition encoders, and the reader fails on id 21 before
consuming any payload, whatever the stream holds. -/
theorem c1_path_roundtrip_broken :
    (∀ (wpl : List (Int × Int) → List Nat) (wrep : Repetition → List Nat),
      PathRec.write wpl wrep PathRec.empty = [21, 0]) ∧
    (∀ (rpl : List Nat → Except PyErr (List (Int × Int) × List Nat))
       (rrep : List Nat → Except PyErr (Repetition × List Nat)) (s : List Nat),
      PathRec.read rpl rrep 21 s = .error (.invalidData .unexpectedId)) := by
  constructor
  · intro wpl wrep
    simp [PathRec.write, PathRec.empty, bool_byte, write_uint]
  · intro rpl rrep s
    rfl

/-- A CTrapezoid record with an unset type (to be filled from the modal)
whose width 1 and height 5 violate the width/height constraint of type 0. -/
def c10rec : CTrapezoidRec where
  ctrapezoid_type := none
  layer := some 0
  datatype := some 0
  width := some 1
  height := some 5
  x := some 0
  y := some 0
  repetition := none

/-- A modal bank whose ctrapezoid_type is 0. -/
def c10modals : Modals := { Modals.reset with ctrapezoid_type := some 0 }

/-- C10: a CTrapezoid whose ctrapezoid_type lies in 0..15 raises a TypeError
- outside the single InvalidDataError family - whenever width or height is
left unset, because the width/height inequality checks of the constructor
compare None with an int; and those inequality checks are never re-run by
merge_with_modals, so a record whose type is filled in from the modal during
merge (here type 0 with width 1 < height 5) passes through unchecked. -/
theorem c10_ctrapezoid_type_error :
    (∀ (t : Nat), t ≤ 15 →
      ∀ (layer datatype width height : Option Nat) (x y : Option Int)
        (rep : Option Repetition),
        width = none ∨ height = none →
        ctrapezoidInit (some t) layer datatype width height x y rep
          = .error .typeError) ∧
    (CTrapezoidRec.merge_with_modals c10rec c10modals).map
        (fun pr => (pr.1.ctrapezoid_type, pr.1.width, pr.1.height))
      = .ok (some 0, some 1, some 5) := by
  constructor
  · intro t ht layer datatype width height x y rep hwh
    interval_cases t <;>
      rcases hwh with h | h <;> subst h <;>
        first
          | (cases height <;> rfl)
          | (cases width <;> rfl)
  · rfl

/-- A square Rectangle (is_square true, height necessarily unset) with
width 5 and the other mergeable fields set. -/
def c7rect : RectangleRec where
  is_square := true
  layer := some 1
  datatype := some 1
  width := some 5
  height := none
  x := some 0
  y := some 0
  repetition := none

/-- C7, counterexample: merging the square Rectangle c7rect against a fresh
bank leaves the height field of the record unset (None) while its width is
5, so the record handed to callers does not have height equal to width as
the claim states (the square height is only implicit in is_square). -/
theorem c7_counterexample :
    (RectangleRec.merge_with_modals c7rect Modals.reset).map
        (fun pr => (pr.1.height, pr.1.width)) = .ok (none, some 5) ∧
    (none : Option Nat) ≠ some 5 := by
  exact ⟨rfl, by decide⟩

/-- C7, amended: for a square Rectangle, merge_with_modals runs
merge_field(width, geometry_w) and then merge_field(width, geometry_h) on
the already merged width; the record handed to callers keeps height unset
(square semantics leave height implicit, equal to the width), and the modal
geometry_h ends up holding the merged width. -/
theorem c7_square_merge (M : Modals) (w l d : Option Nat) (x y : Option Int)
    (rep rep2 mrep : Option Repetition) (l2 ml d2 md w1 gw w2 gh : Option Nat)
    (hrep : adjust_repetition rep M.repetition = .ok (rep2, mrep))
    (hl : adjust_field l M.layer = .ok (l2, ml))
    (hd : adjust_field d M.datatype = .ok (d2, md))
    (hw1 : adjust_field w M.geometry_w = .ok (w1, gw))
    (hw2 : adjust_field w1 M.geometry_h = .ok (w2, gh)) :
    RectangleRec.merge_with_modals
        { is_square := true, layer := l, datatype := d, width := w, height := none,
          x := x, y := y, repetition := rep } M
      = .ok
        ({ is_square := true
           layer := l2
           datatype := d2
           width := w2
           height := none
           x := (adjust_coordinate_axis M.xy_relative x M.geometry_x).1
           y := (adjust_coordinate_axis M.xy_relative y M.geometry_y).1
           repetition := rep2 },
         { M with
             geometry_x := (adjust_coordinate_axis M.xy_relative x M.geometry_x).2
             geometry_y := (adjust_coordinate_axis M.xy_relative y M.geometry_y).2
             repetition := mrep
             layer := ml
             datatype := md
             geometry_w := gw
             geometry_h := gh }) := by
  simp [RectangleRec.merge_with_modals, adjust_coordinates, hrep, hl, hd, hw1, hw2,
        bind, Except.bind, Functor.map, Except.map, pure, Except.pure]

/-- Witness for c7_square_merge: the amended statement applies to the
concrete square Rectangle c7rect against the fresh bank, every engine
hypothesis holding by computation. -/
theorem c7_square_merge_witness :
    RectangleRec.merge_with_modals c7rect Modals.reset
      = .ok
        ({ is_square := true
           layer := some 1
           datatype := some 1
           width := some 5
           height := none
           x := some 0
           y := some 0
           repetition := none },
         { Modals.reset with
             layer := some 1
             datatype := some 1
             geometry_w := some 5
             geometry_h := some 5 }) := by
  have h := c7_square_merge Modals.reset (some 5) (some 1) (some 1) (some 0) (some 0)
    none none none (some 1) (some 1) (some 1) (some 1) (some 5) (some 5) (some 5)
    (some 5) rfl rfl rfl rfl rfl
  exact h

/-- An offset-table encoding 300 bytes long: eleven single-byte uints
followed by one 289-byte multibyte uint (288 continuation bytes 0x80 and a
final 0x01), which is a legal fixed-layout offset table since the uint
encoding is unbounded. -/
def c8bigTable : List Nat :=
  List.replicate 11 0 ++ (List.replicate 288 128 ++ [1])


set_option maxRecDepth 40000 in
/-- C8, counterexample: an End record whose offset table encodes to 300
bytes and whose validation encodes to 1 byte is written as 302 bytes (the
padding is skipped because pad_len is negative), not 256, while the
function still returns 256 - so neither the fixed outer length nor the
returned-equals-written part of the claim holds for every End record. -/
theorem c8_counterexample :
    (EndRec.writeBytes (some c8bigTable) [0]).1.length = 302 ∧
    (EndRec.writeBytes (some c8bigTable) [0]).2 = 256 ∧
    (302 : Nat) ≠ 256 := by
  have hid : write_uint 2 = [2] := by simp [write_uint]
  refine ⟨?_, rfl, by decide⟩
  simp [EndRec.writeBytes, hid, c8bigTable]

/-- C8, amended: whenever the id byte, the offset table bytes and the
validation bytes fit in 256 bytes (the condition the spec design notes also
impose on callers), End.write emits exactly 256 bytes and its returned
count 256 equals the number of bytes written. -/
theorem c8_end_write_padded (ot : Option (List Nat)) (validation_bytes : List Nat)
    (h : 1 + (ot.getD []).length + validation_bytes.length ≤ 256) :
    (EndRec.writeBytes ot validation_bytes).1.length = 256 ∧
    (EndRec.writeBytes ot validation_bytes).2 = 256 := by
  have hid : write_uint 2 = [2] := by simp [write_uint]
  cases ot with
  | none =>
    simp only [Option.getD] at h
    refine ⟨?_, rfl⟩
    simp only [EndRec.writeBytes, hid]
    split_ifs with hpad <;>
      simp only [List.length_append, List.length_replicate, List.length_cons,
        List.length_nil] at hpad ⊢ <;>
      omega
  | some b =>
    simp only [Option.getD] at h
    refine ⟨?_, rfl⟩
    simp only [EndRec.writeBytes, hid]
    split_ifs with hpad <;>
      simp only [List.length_append, List.length_replicate, List.length_cons,
        List.length_nil] at hpad ⊢ <;>
      omega

/-- Witness for c8_end_write_padded: an End record with no offset table and
a one-byte validation satisfies the fit condition and is emitted as exactly
256 bytes with return value 256. -/
theorem c8_end_write_padded_witness :
    1 + ((none : Option (List Nat)).getD []).length + [0].length ≤ 256 ∧
    ((EndRec.writeBytes none [0]).1.length = 256 ∧
     (EndRec.writeBytes none [0]).2 = 256) :=
  ⟨by simp, c8_end_write_padded none [0] (by simp)⟩

/-- C2, counterexample: dedup then merge against the same starting bank is
not the identity on records.  The Circle c2circle leaves its radius unset;
dedup against c2modals (circle_radius = 5) leaves the record without a
radius, and the subsequent merge against the same bank state fills
radius = 5, so the composite returns a record different from the
original. -/
theorem c2_counterexample :
    (CircleRec.deduplicate_with_modals c2circle c2modals).bind
        (fun pr => (CircleRec.merge_with_modals pr.1 c2modals).map Prod.fst)
      = .ok { c2circle with radius := some 5 } ∧
    ({ c2circle with radius := some 5 } : CircleRec) ≠ c2circle := by
  exact ⟨rfl, by decide⟩

/-- C2, amended: merge composed with dedup against the same starting modal
state is the identity on a record precisely when the record leaves nothing
to the modals - every modal-backed field set and the repetition, when
present, not the Reuse marker - shown here for the Circle variant over an
arbitrary starting bank; a record with an unset field instead comes back
with that field filled from the bank (c2_counterexample). -/
theorem c2_roundtrip_full_circle :
    ∀ (M : Modals) (l d rad : Nat) (x y : Int) (k : Nat) (ps : List Int),
      (CircleRec.deduplicate_with_modals (circleFull l d rad x y none) M).bind
          (fun pr => (CircleRec.merge_with_modals pr.1 M).map Prod.fst)
        = .ok (circleFull l d rad x y none) ∧
      (CircleRec.deduplicate_with_modals
            (circleFull l d rad x y (some (.explicitRep k ps))) M).bind
          (fun pr => (CircleRec.merge_with_modals pr.1 M).map Prod.fst)
        = .ok (circleFull l d rad x y (some (.explicitRep k ps))) := by
  intro M l d rad x y k ps
  constructor
  · unfold CircleRec.deduplicate_with_modals CircleRec.merge_with_modals
      dedup_coordinates adjust_coordinates circleFull
    by_cases h1 : M.layer = some l <;>
    by_cases h2 : M.datatype = some d <;>
    by_cases h3 : M.circle_radius = some rad <;>
    by_cases hx : x = M.geometry_x <;>
    by_cases hy : y = M.geometry_y <;>
    cases hrel : M.xy_relative <;>
    simp [dedup_field, adjust_field, dedup_repetition, adjust_repetition,
      dedup_coordinate_axis, adjust_coordinate_axis, h1, h2, h3, hx, hy, hrel,
      bind, Except.bind, pure, Except.pure, Functor.map, Except.map,
      sub_add_cancel]
  · unfold CircleRec.deduplicate_with_modals CircleRec.merge_with_modals
      dedup_coordinates adjust_coordinates circleFull
    by_cases h1 : M.layer = some l <;>
    by_cases h2 : M.datatype = some d <;>
    by_cases h3 : M.circle_radius = some rad <;>
    by_cases hx : x = M.geometry_x <;>
    by_cases hy : y = M.geometry_y <;>
    by_cases h4 : M.repetition = some (.explicitRep k ps) <;>
    cases hrel : M.xy_relative <;>
    simp [dedup_field, adjust_field, dedup_repetition, adjust_repetition,
      dedup_coordinate_axis, adjust_coordinate_axis, h1, h2, h3, hx, hy, h4, hrel,
      bind, Except.bind, pure, Except.pure, Functor.map, Except.map,
      sub_add_cancel]

/-- Witness for c10_ctrapezoid_type_error: type 0 with an unset width and
height 5 satisfies the hypotheses and the constructor raises the
TypeError. -/
theorem c10_ctrapezoid_type_error_witness :
    ((0 : Nat) ≤ 15 ∧ ((none : Option Nat) = none ∨ (some 5 : Option Nat) = none)) ∧
    ctrapezoidInit (some 0) none none none (some 5) none none none
      = .error .typeError :=
  ⟨⟨by decide, Or.inl rfl⟩,
   c10_ctrapezoid_type_error.1 0 (by decide) none none none (some 5) none none none
     (Or.inl rfl)⟩
